import Mathlib

set_option autoImplicit false

namespace Apptoken

/-!
Shallow embedding of the apptoken credential-broker daemon (TypeScript/Effect
sources under `src/`).  The JSON model below embeds the behaviour of
JavaScript `JSON.parse` / `JSON.stringify` as used by the request router
(`DaemonService.handleRequest`), the socket client (`SocketClient.ts`) and the
socket server (`SocketServer.ts`): newline-delimited UTF-8 JSON messages.
-/

/-- JSON values as produced by JavaScript `JSON.parse`.  Numbers keep their
source lexeme: no claim in this development depends on numeric valuation, and
the router only ever compares the `action` field against string literals. -/
inductive Json where
  | null
  | bool (b : Bool)
  | num (lexeme : String)
  | str (s : String)
  | arr (elems : List Json)
  | obj (fields : List (String × Json))
deriving Repr

/-- Whitespace accepted between JSON tokens (RFC 8259, also what
`JSON.parse` skips). -/
def jsonWs (c : Char) : Bool :=
  c = ' ' || c = '\t' || c = '\n' || c = '\r'

/-- Drops leading JSON whitespace. -/
def skipWs : List Char → List Char
  | [] => []
  | c :: cs => if jsonWs c then skipWs cs else c :: cs

/-- Value of one hexadecimal digit, used for `\uXXXX` escapes. -/
def hexVal (c : Char) : Option Nat :=
  if '0' ≤ c ∧ c ≤ '9' then some (c.toNat - '0'.toNat)
  else if 'a' ≤ c ∧ c ≤ 'f' then some (c.toNat - 'a'.toNat + 10)
  else if 'A' ≤ c ∧ c ≤ 'F' then some (c.toNat - 'A'.toNat + 10)
  else none

/-- Parses the body of a JSON string literal (the opening quote already
consumed), returning the decoded string and the remaining input. -/
def pString : Nat → List Char → List Char → Option (String × List Char)
  | 0, _, _ => none
  | _ + 1, _, [] => none
  | fuel + 1, acc, c :: cs =>
    if c = '"' then some (String.mk acc.reverse, cs)
    else if c = '\\' then
      match cs with
      | [] => none
      | e :: cs1 =>
        if e = '"' then pString fuel ('"' :: acc) cs1
        else if e = '\\' then pString fuel ('\\' :: acc) cs1
        else if e = '/' then pString fuel ('/' :: acc) cs1
        else if e = 'b' then pString fuel (Char.ofNat 8 :: acc) cs1
        else if e = 'f' then pString fuel (Char.ofNat 12 :: acc) cs1
        else if e = 'n' then pString fuel ('\n' :: acc) cs1
        else if e = 'r' then pString fuel ('\r' :: acc) cs1
        else if e = 't' then pString fuel ('\t' :: acc) cs1
        else if e = 'u' then
          match cs1 with
          | h1 :: h2 :: h3 :: h4 :: cs2 =>
            match hexVal h1, hexVal h2, hexVal h3, hexVal h4 with
            | some a, some b, some c2, some d =>
              pString fuel (Char.ofNat (((a * 16 + b) * 16 + c2) * 16 + d) :: acc) cs2
            | _, _, _, _ => none
          | _ => none
        else none
    else if c.toNat < 32 then none
    else pString fuel (c :: acc) cs

/-- Parses the optional fraction part of a JSON number. -/
def pFrac : List Char → Option (List Char × List Char)
  | '.' :: rest =>
    let ds := rest.takeWhile Char.isDigit
    if ds.isEmpty then none else some ('.' :: ds, rest.dropWhile Char.isDigit)
  | cs => some ([], cs)

/-- Parses the optional exponent part of a JSON number. -/
def pExp : List Char → Option (List Char × List Char)
  | [] => some ([], [])
  | c :: rest =>
    if c = 'e' ∨ c = 'E' then
      let signAndRest : List Char × List Char :=
        match rest with
        | s :: r => if s = '+' ∨ s = '-' then ([s], r) else ([], rest)
        | [] => ([], rest)
      let ds := signAndRest.2.takeWhile Char.isDigit
      if ds.isEmpty then none
      else some (c :: (signAndRest.1 ++ ds), signAndRest.2.dropWhile Char.isDigit)
    else some ([], c :: rest)

/-- Parses a JSON number (grammar `-? (0 | [1-9][0-9]*) frac? exp?`),
returning its lexeme. -/
def pNumber (cs : List Char) : Option (String × List Char) :=
  let signAndRest : List Char × List Char :=
    match cs with
    | '-' :: rest => (['-'], rest)
    | _ => ([], cs)
  let intPart := signAndRest.2.takeWhile Char.isDigit
  let afterInt := signAndRest.2.dropWhile Char.isDigit
  if intPart.isEmpty then none
  else if intPart.length > 1 ∧ intPart.headD '0' = '0' then none
  else
    match pFrac afterInt with
    | none => none
    | some (fracPart, afterFrac) =>
      match pExp afterFrac with
      | none => none
      | some (expPart, rest) =>
        some (String.mk (signAndRest.1 ++ intPart ++ fracPart ++ expPart), rest)

mutual

/-- Fuel-based recursive-descent parser for one JSON value, embedding the
grammar accepted by `JSON.parse`. -/
def pValue : Nat → List Char → Option (Json × List Char)
  | 0, _ => none
  | fuel + 1, cs =>
    match skipWs cs with
    | 'n' :: 'u' :: 'l' :: 'l' :: rest => some (.null, rest)
    | 't' :: 'r' :: 'u' :: 'e' :: rest => some (.bool true, rest)
    | 'f' :: 'a' :: 'l' :: 's' :: 'e' :: rest => some (.bool false, rest)
    | '"' :: rest =>
      match pString (rest.length + 1) [] rest with
      | some (s, rest1) => some (.str s, rest1)
      | none => none
    | '[' :: rest =>
      match skipWs rest with
      | ']' :: rest1 => some (.arr [], rest1)
      | cs1 =>
        match pElems fuel cs1 with
        | some (xs, rest1) => some (.arr xs, rest1)
        | none => none
    | '\x7b' :: rest =>
      match skipWs rest with
      | '\x7d' :: rest1 => some (.obj [], rest1)
      | cs1 =>
        match pFields fuel cs1 with
        | some (fs, rest1) => some (.obj fs, rest1)
        | none => none
    | cs1 =>
      match pNumber cs1 with
      | some (lexeme, rest) => some (.num lexeme, rest)
      | none => none

/-- Parses a nonempty comma-separated list of array elements up to the
closing bracket. -/
def pElems : Nat → List Char → Option (List Json × List Char)
  | 0, _ => none
  | fuel + 1, cs =>
    match pValue fuel cs with
    | none => none
    | some (j, rest) =>
      match skipWs rest with
      | ',' :: rest1 =>
        match pElems fuel rest1 with
        | some (xs, rest2) => some (j :: xs, rest2)
        | none => none
      | ']' :: rest1 => some ([j], rest1)
      | _ => none

/-- Parses a nonempty comma-separated list of object members up to the
closing brace. -/
def pFields : Nat → List Char → Option (List (String × Json) × List Char)
  | 0, _ => none
  | fuel + 1, cs =>
    match skipWs cs with
    | '"' :: rest =>
      match pString (rest.length + 1) [] rest with
      | some (k, rest1) =>
        match skipWs rest1 with
        | ':' :: rest2 =>
          match pValue fuel rest2 with
          | some (v, rest3) =>
            match skipWs rest3 with
            | ',' :: rest4 =>
              match pFields fuel rest4 with
              | some (fs, rest5) => some ((k, v) :: fs, rest5)
              | none => none
            | '\x7d' :: rest4 => some ([(k, v)], rest4)
            | _ => none
          | none => none
        | _ => none
      | none => none
    | _ => none

end

/-- Embedding of `JSON.parse`: `none` models a thrown `SyntaxError` (the
`catch` branches of the sources), `some j` a successful parse of the whole
input (surrounding whitespace allowed). -/
def parseJson (s : String) : Option Json :=
  match pValue (2 * s.length + 8) s.data with
  | some (j, rest) => if (skipWs rest).isEmpty then some j else none
  | none => none

/-- Lower-case hexadecimal digit, for control-character escapes. -/
def hexDigit (n : Nat) : Char :=
  if n < 10 then Char.ofNat ('0'.toNat + n) else Char.ofNat ('a'.toNat + n - 10)

/-- Escaping of one character inside a JSON string literal, as done by
`JSON.stringify`. -/
def escapeChar (c : Char) : String :=
  if c = '"' then "\\\""
  else if c = '\\' then "\\\\"
  else if c = Char.ofNat 8 then "\\b"
  else if c = Char.ofNat 12 then "\\f"
  else if c = '\n' then "\\n"
  else if c = '\r' then "\\r"
  else if c = '\t' then "\\t"
  else if c.toNat < 32 then
    "\\u00" ++ String.mk [hexDigit (c.toNat / 16), hexDigit (c.toNat % 16)]
  else String.mk [c]

/-- Escapes every character of a string for inclusion in a JSON literal. -/
def escapeString (s : String) : String :=
  s.data.foldl (fun acc c => acc ++ escapeChar c) ""

/-- Renders a quoted JSON string literal. -/
def quoteStr (s : String) : String :=
  "\"" ++ escapeString s ++ "\""

mutual

/-- Embedding of `JSON.stringify` (no spacing, insertion order of keys), the
serializer used for every wire response.  On `num` the stored lexeme is
reused; no response built by the sources contains a number. -/
def stringify : Json → String
  | .null => "null"
  | .bool true => "true"
  | .bool false => "false"
  | .num lexeme => lexeme
  | .str s => quoteStr s
  | .arr xs => "[" ++ stringifyElems xs ++ "]"
  | .obj fs => "\x7b" ++ stringifyFields fs ++ "\x7d"

/-- Renders array elements, comma-separated. -/
def stringifyElems : List Json → String
  | [] => ""
  | [x] => stringify x
  | x :: y :: xs => stringify x ++ "," ++ stringifyElems (y :: xs)

/-- Renders object members, comma-separated. -/
def stringifyFields : List (String × Json) → String
  | [] => ""
  | [(k, v)] => quoteStr k ++ ":" ++ stringify v
  | (k, v) :: f :: fs => quoteStr k ++ ":" ++ stringify v ++ "," ++ stringifyFields (f :: fs)

end

/-- Property read `value.key` on a parsed JSON value: fields of objects (the
LAST binding wins, as in JavaScript), `none` (undefined) on non-objects.
Reading a property of `null` throws in JavaScript; that case is handled at
the call sites that can receive `null`. -/
def jsGet (j : Json) (key : String) : Option Json :=
  match j with
  | .obj fields => fields.reverse.lookup key
  | _ => none

/-- Tests whether a number lexeme denotes zero (all mantissa digits 0). -/
def numLexemeIsZero (lexeme : String) : Bool :=
  let mantissa := lexeme.data.takeWhile (fun c => c ≠ 'e' ∧ c ≠ 'E')
  (mantissa.filter Char.isDigit).all (fun c => c = '0')

/-- JavaScript truthiness of a property read (`none` models `undefined`). -/
def jsTruthy : Option Json → Bool
  | none => false
  | some .null => false
  | some (.bool b) => b
  | some (.num lexeme) => ! numLexemeIsZero lexeme
  | some (.str s) => s ≠ ""
  | some (.arr _) => true
  | some (.obj _) => true

/-- Embedding of JavaScript `String.prototype.trim` (ASCII whitespace; the
request router calls it before `JSON.parse`). -/
def jsTrim (s : String) : String :=
  let ws : Char → Bool := fun c =>
    c = ' ' || c = '\t' || c = '\n' || c = '\r' || c = Char.ofNat 12 || c = Char.ofNat 11
  String.mk ((s.data.dropWhile ws).reverse.dropWhile ws).reverse

mutual

/-- Template-literal rendering `${v}` of a JSON value, as JavaScript string
conversion does it; numbers reuse their lexeme (exact for the canonical
integer literals that occur here). -/
def jsDisplay : Json → String
  | .null => "null"
  | .bool true => "true"
  | .bool false => "false"
  | .num lexeme => lexeme
  | .str s => s
  | .arr xs => jsDisplayList xs
  | .obj _ => "[object Object]"

/-- Array contents joined with commas (`Array.prototype.toString`). -/
def jsDisplayList : List Json → String
  | [] => ""
  | [x] => jsDisplayElem x
  | x :: y :: xs => jsDisplayElem x ++ "," ++ jsDisplayList (y :: xs)

/-- Array elements render like `jsDisplay` except `null` becomes empty. -/
def jsDisplayElem : Json → String
  | .null => ""
  | .bool true => "true"
  | .bool false => "false"
  | .num lexeme => lexeme
  | .str s => s
  | .arr xs => jsDisplayList xs
  | .obj _ => "[object Object]"

end

/-- Rendering of `parsed.action ?? "(none)"` inside the unknown-action
template: `??` replaces both `undefined` (absent field) and `null`. -/
def jsCoalesceDisplay : Option Json → String
  | none => "(none)"
  | some .null => "(none)"
  | some j => jsDisplay j

/-!  ## Credential cache / broker (TokenService.ts)  -/

/-- Installation token held by the broker: the secret value and the absolute
expiry timestamp in milliseconds (`Date.getTime()`). -/
structure InstallationToken where
  token : String
  expiresAtMs : Int
deriving Repr, DecidableEq

/-- Refresh buffer `CACHE_BUFFER_MS = 5 * 60 * 1000` of TokenService.ts. -/
def CACHE_BUFFER_MS : Int := 5 * 60 * 1000

/-- Embedding of the `isCacheValid` closure (TokenService.ts lines 36-39). -/
def isCacheValid (cached : Option InstallationToken) (nowMs : Int) : Bool :=
  match cached with
  | none => false
  | some t => decide (CACHE_BUFFER_MS < t.expiresAtMs - nowMs)

/-- Embedding of `getInstallationToken()` (TokenService.ts lines 42-56) as a
state transition on the `cached` variable.  `nowMs` is `Date.now()` at the
call, `generateJwt` the outcome of `deps.generateJwt(pem, appId)`, and
`requestInstallationToken` the outcome of the exchange for a given jwt.
Returns the call result, the new cache, and how many times the two-step
credential provider was invoked during the call (0 or 1). -/
def getInstallationToken {A B : Type} (cached : Option InstallationToken) (nowMs : Int)
    (generateJwt : Except A String)
    (requestInstallationToken : String → Except B InstallationToken) :
    Except (A ⊕ B) InstallationToken × Option InstallationToken × Nat :=
  if isCacheValid cached nowMs then
    (.ok (cached.getD ⟨"", 0⟩), cached, 0)
  else
    match generateJwt with
    | .error e => (.error (.inl e), cached, 1)
    | .ok jwt =>
      match requestInstallationToken jwt with
      | .error e => (.error (.inr e), cached, 1)
      | .ok t => (.ok t, some t, 1)

/-!  ## Request router (`handleRequest`, identical in DaemonService.ts
lines 43-83 and SocketServer.ts lines 16-56)  -/

/-- Token data as the router sees it after a successful
`getInstallationToken()`: the token string and `expiresAt.toISOString()`. -/
structure ServerToken where
  token : String
  expiresAtIso : String
deriving Repr, DecidableEq

/-- Embedding of `handleRequest`.  `tokenResult` stands for the outcome of
`tokenService.getInstallationToken()` captured by `Effect.either`, its error
already rendered by `String(result.left)`.  The value `none` models the
effect dying with a defect: that happens exactly when the request line parses
to JSON `null`, because `parsed.action` then throws a TypeError inside the
generator (a synchronous throw in `Effect.gen` is a defect, not a typed
error — the declared error channel stays `never`). -/
def handleRequest (raw : String) (tokenResult : Except String ServerToken) : Option String :=
  match parseJson (jsTrim raw) with
  | none => some (stringify (.obj [("ok", .bool false), ("error", .str "Invalid JSON")]))
  | some .null => none
  | some parsed =>
    match jsGet parsed "action" with
    | some (.str a) =>
      if a = "ping" then
        some (stringify (.obj [("ok", .bool true), ("pong", .bool true)]))
      else if a = "getToken" then
        match tokenResult with
        | .ok t =>
          some (stringify (.obj [("ok", .bool true), ("token", .str t.token),
            ("expiresAt", .str t.expiresAtIso)]))
        | .error e =>
          some (stringify (.obj [("ok", .bool false), ("error", .str e)]))
      else
        some (stringify (.obj [("ok", .bool false),
          ("error", .str ("Unknown action: " ++ a))]))
    | other =>
      some (stringify (.obj [("ok", .bool false),
        ("error", .str ("Unknown action: " ++ jsCoalesceDisplay other))]))

/-- Splits an accumulated connection buffer at its first newline
(`buffer.indexOf("\n")` / `slice`): the message before it and the remainder
after it. -/
def firstLine (buffer : String) : Option (String × String) :=
  let pre := buffer.data.takeWhile (fun c => c != '\n')
  match buffer.data.dropWhile (fun c => c != '\n') with
  | [] => none
  | _ :: rest => some (String.mk pre, String.mk rest)

/-- Bytes the server writes back on the SAME connection that delivered
`message` (the per-connection data handler of DaemonService.ts lines
118-139): the router's response — or, when the router died with a defect,
the `.catch` fallback `{ok:false,error:String(err)}` — followed by one
newline.  `defectMsg` stands for `String(err)` of the caught defect. -/
def connResponse (message : String) (tokenResult : Except String ServerToken)
    (defectMsg : String) : String :=
  match handleRequest message tokenResult with
  | some resp => resp ++ "\n"
  | none => stringify (.obj [("ok", .bool false), ("error", .str defectMsg)]) ++ "\n"

/-- Server behaviour for one connection given all bytes received on it: the
first complete line is answered on that same connection; with no complete
line nothing is written. -/
def serverConnOutput (received : String) (tokenResult : Except String ServerToken)
    (defectMsg : String) : Option String :=
  (firstLine received).map (fun p => connResponse p.1 tokenResult defectMsg)

/-!  ## Socket client (SocketClient.ts)  -/

/-- Client-side error variants (errors.ts). -/
inductive ClientError where
  | daemonNotRunning
  | socketError (message : String)
deriving Repr, DecidableEq

/-- What the OS socket layer does with one connection attempt; this drives
the event callbacks registered by `sendRequest` (SocketClient.ts 14-56). -/
inductive ConnBehavior where
  | connectThrow
  | errorEvent (code : String) (message : String)
  | lineEvent (line : String)
  | silence
deriving Repr, DecidableEq

/-- Embedding of `sendRequest`: `socketExists` is `existsSync(socketPath)`.
A result of `none` means the `Effect.async` callback is never resumed — the
request never completes, since the code installs no timeout and only the
`data` and `error` events can resume it. -/
def sendRequest (socketExists : Bool) (behavior : ConnBehavior) :
    Option (Except ClientError String) :=
  if !socketExists then some (.error .daemonNotRunning)
  else
    match behavior with
    | .connectThrow => some (.error .daemonNotRunning)
    | .errorEvent code message =>
      if code = "ECONNREFUSED" ∨ code = "ENOENT" then some (.error .daemonNotRunning)
      else some (.error (.socketError message))
    | .lineEvent line => some (.ok line)
    | .silence => none

/-- Parsing/classification pipeline of `requestToken` (SocketClient.ts
60-92) applied to a received response line.  `none` models a defect: a line
parsing to JSON `null` makes `parsed.ok` throw outside the try/catch.  The
success value is the raw `token` and `expiresAt` field values. -/
def parseTokenResponse (raw : String) : Option (Except ClientError (Json × Json)) :=
  match parseJson raw with
  | none => some (.error (.socketError "Malformed response"))
  | some .null => none
  | some parsed =>
    if !(jsTruthy (jsGet parsed "ok")) then
      some (.error (.socketError
        (match jsGet parsed "error" with
         | some (.str s) => s
         | some .null => "Server error"
         | none => "Server error"
         | some other => jsDisplay other)))
    else if !(jsTruthy (jsGet parsed "token")) ∨ !(jsTruthy (jsGet parsed "expiresAt")) then
      some (.error (.socketError "Missing token or expiresAt in response"))
    else
      some (.ok ((jsGet parsed "token").getD .null, (jsGet parsed "expiresAt").getD .null))

/-- Embedding of `requestToken()`: send, then parse and classify. -/
def requestToken (socketExists : Bool) (behavior : ConnBehavior) :
    Option (Except ClientError (Json × Json)) :=
  match sendRequest socketExists behavior with
  | none => none
  | some (.error e) => some (.error e)
  | some (.ok raw) => parseTokenResponse raw

/-- Embedding of `ping()` (SocketClient.ts 94-100): the response line is
received but its content is discarded unparsed. -/
def pingClient (socketExists : Bool) (behavior : ConnBehavior) :
    Option (Except ClientError Unit) :=
  match sendRequest socketExists behavior with
  | none => none
  | some (.error e) => some (.error e)
  | some (.ok _) => some (.ok ())

/-!  ## Process lifecycle manager (DaemonService.ts, part_002)  -/

/-- Outcome of `process.kill(pid, 0)`: success, or a thrown error with a
POSIX code (`ESRCH` = no such process, `EPERM` = operation not permitted,
e.g. the pid was reused by another user). -/
inductive KillOutcome where
  | success
  | esrch
  | eperm
  | otherError (code : String)
deriving Repr, DecidableEq

/-- Embedding of `isProcessAlive` (part_002 lines 34-41): the bare
`try { process.kill(pid, 0); return true } catch { return false }` — every
thrown error, whatever its code, yields `false`. -/
def isProcessAlive (outcome : KillOutcome) : Bool :=
  match outcome with
  | .success => true
  | _ => false

/-- Probe following the words of the spec (section 4.1.1), for comparison
with `isProcessAlive`: success is alive, "no such process" is dead, any
other error is conservatively alive. -/
def specProbeAlive (outcome : KillOutcome) : Bool :=
  match outcome with
  | .success => true
  | .esrch => false
  | _ => true

/-- Daemon-visible state: the in-process server handle (`server` variable),
the pid file content, and whether the socket file exists. -/
structure DaemonState where
  serverHeld : Bool
  pidFile : Option String
  socketFile : Bool
deriving Repr, DecidableEq

/-- Filesystem / listener actions a lifecycle operation performs, in
order. -/
inductive FsAction where
  | unlinkPid
  | unlinkSocket
  | bindListener
  | chmodSocket
  | writePid (content : String)
deriving Repr, DecidableEq

/-- Failure variants of the lifecycle operations (errors.ts). -/
inductive DaemonFailure where
  | alreadyRunning
  | notRunning
  | daemonError (message : String)
deriving Repr, DecidableEq

/-- Embedding of `parseInt(s, 10)`: `none` models NaN (no leading digit
after trimming and an optional sign). -/
def jsParseInt10 (s : String) : Option Int :=
  let t := (jsTrim s).data
  let core : List Char × Bool :=
    match t with
    | '-' :: rest => (rest, true)
    | '+' :: rest => (rest, false)
    | _ => (t, false)
  let ds := core.1.takeWhile Char.isDigit
  if ds.isEmpty then none
  else
    let n : Nat := ds.foldl (fun acc c => acc * 10 + (c.toNat - '0'.toNat)) 0
    some (if core.2 then -(n : Int) else (n : Int))

/-- Embedding of `start()` (part_002 lines 91-161).  `probe` gives the
`process.kill(pid, 0)` outcome per pid, `bindOk` whether `server.listen`
succeeds (its error message abstracted as `bindErrMsg`), `selfPid` is
`process.pid`.  Returns the result, the final state, and the ordered
actions performed (`chmodSocket` is the best-effort 0600 attempt). -/
def daemonStart (st : DaemonState) (probe : Int → KillOutcome) (bindOk : Bool)
    (bindErrMsg : String) (selfPid : Nat) :
    Except DaemonFailure Unit × DaemonState × List FsAction :=
  if st.serverHeld then (.error .alreadyRunning, st, [])
  else
    let afterPid : Option (DaemonState × List FsAction) :=
      match st.pidFile with
      | some content =>
        match jsParseInt10 content with
        | some pid =>
          if isProcessAlive (probe pid) then none
          else some ({st with pidFile := none}, [.unlinkPid])
        | none => some ({st with pidFile := none}, [.unlinkPid])
      | none => some (st, [])
    match afterPid with
    | none => (.error .alreadyRunning, st, [])
    | some (st1, tr1) =>
      let cleaned : DaemonState × List FsAction :=
        if st1.socketFile then ({st1 with socketFile := false}, tr1 ++ [.unlinkSocket])
        else (st1, tr1)
      let st2 := cleaned.1
      let tr2 := cleaned.2
      if bindOk then
        (.ok (),
         { st2 with serverHeld := true, socketFile := true,
                    pidFile := some (toString selfPid) },
         tr2 ++ [.bindListener, .chmodSocket, .writePid (toString selfPid)])
      else (.error (.daemonError bindErrMsg), st2, tr2)

/-- Embedding of `stop()` (part_002 lines 163-193): `closeOk` is whether
`srv.close` calls back without error.  The handle is released (`server =
undefined`) before closing; on close failure the effect fails with
`DaemonError` and the two `unlinkSync` calls after the `yield*` are never
reached. -/
def daemonStop (st : DaemonState) (closeOk : Bool) (closeErrMsg : String) :
    Except DaemonFailure Unit × DaemonState × List FsAction :=
  if !st.serverHeld then (.error .notRunning, st, [])
  else
    let st1 := { st with serverHeld := false }
    if !closeOk then (.error (.daemonError closeErrMsg), st1, [])
    else
      let cleaned : DaemonState × List FsAction :=
        if st1.socketFile then ({ st1 with socketFile := false }, [.unlinkSocket])
        else (st1, [])
      if cleaned.1.pidFile.isSome then
        (.ok (), { cleaned.1 with pidFile := none }, cleaned.2 ++ [.unlinkPid])
      else (.ok (), cleaned.1, cleaned.2)

/-- Embedding of `status()` (part_002 lines 195-211): reports whether the
daemon is running and with which pid; never mutates any file. -/
def daemonStatus (st : DaemonState) (probe : Int → KillOutcome) (selfPid : Nat) :
    Bool × Option Int :=
  if st.serverHeld then (true, some (selfPid : Int))
  else
    match st.pidFile with
    | some content =>
      match jsParseInt10 content with
      | some pid => if isProcessAlive (probe pid) then (true, some pid) else (false, none)
      | none => (false, none)
    | none => (false, none)

/-!  ## Client-side auto-start orchestration (part_003)  -/

/-- Fixed poll interval of `waitForDaemon` (`Effect.sleep("200 millis")`). -/
def pollIntervalMs : Nat := 200

/-- Attempt bound of the `waitForDaemon` loop (`attempt < 10`). -/
def pollMaxAttempts : Nat := 10

/-- Inner loop of `waitForDaemon` (part_003 lines 154-174): `fuel` counts
the remaining iterations, `attempt` the current index, `lastError` the error
of the most recent failed ping.  Returns the result, the number of `ping`
calls made, and the list of sleep durations (ms) performed. -/
def waitLoop (pingResults : Nat → Except ClientError Unit) :
    Nat → Nat → Option ClientError → Except ClientError Unit × Nat × List Nat
  | 0, _, lastError => (.error (lastError.getD .daemonNotRunning), 0, [])
  | fuel + 1, attempt, _ =>
    match pingResults attempt with
    | .ok _ => (.ok (), 1, [])
    | .error e =>
      let rest := waitLoop pingResults fuel (attempt + 1) (some e)
      (rest.1, rest.2.1 + 1, pollIntervalMs :: rest.2.2)

/-- Embedding of `waitForDaemon`: ten attempts starting at 0 with no last
error recorded. -/
def waitForDaemon (pingResults : Nat → Except ClientError Unit) :
    Except ClientError Unit × Nat × List Nat :=
  waitLoop pingResults pollMaxAttempts 0 none

/-- Token-acquisition flow of the `gh` command (part_003 lines 458-516):
`first` and `second` are the outcomes the transport would give the first and
the retried `client.requestToken()`, `authOk` abstracts the
config/PEM/password/decrypt steps (the command aborts early when one of them
fails), `wait` the outcome of `waitForDaemon` after the daemon process is
spawned.  Returns the final token outcome (`none` when the command returned
early without one) and how many times `requestToken` ran. -/
def ghTokenFlow {T : Type} (noDaemonStart : Bool)
    (first : Except ClientError T) (authOk : Bool)
    (wait : Except ClientError Unit) (second : Except ClientError T) :
    Option (Except ClientError T) × Nat :=
  match first with
  | .error .daemonNotRunning =>
    if noDaemonStart then (some (.error .daemonNotRunning), 1)
    else if !authOk then (none, 1)
    else
      match wait with
      | .error _ => (none, 1)
      | .ok _ => (some second, 2)
  | r => (some r, 1)

/-!  ## Theorems settling the claims  -/

/-- C1: a `getToken()` call with a cached token whose expiry minus the
current time strictly exceeds the 5-minute refresh buffer returns that
cached token unchanged without invoking the credential provider; otherwise
the call invokes the provider (JWT generation, then token exchange) exactly
once and, on success, stores the result wholesale as the new cached token
and returns it.  Consequently a first call on an empty cache followed by a
second call made while the first result still exceeds the refresh buffer
returns an identical token with exactly one provider invocation in total. -/
theorem c1_broker_refresh_policy {A B : Type}
    (t : InstallationToken) (now1 now2 : Int)
    (gen : Except A String) (req : String → Except B InstallationToken)
    (cached : Option InstallationToken) (jwt : String) :
    (CACHE_BUFFER_MS < t.expiresAtMs - now1 →
      getInstallationToken (some t) now1 gen req = (.ok t, some t, 0)) ∧
    (isCacheValid cached now1 = false →
      (getInstallationToken cached now1 gen req).2.2 = 1) ∧
    (isCacheValid cached now1 = false → gen = .ok jwt → req jwt = .ok t →
      getInstallationToken cached now1 gen req = (.ok t, some t, 1)) ∧
    (gen = .ok jwt → req jwt = .ok t → CACHE_BUFFER_MS < t.expiresAtMs - now2 →
      getInstallationToken none now1 gen req = (.ok t, some t, 1) ∧
      getInstallationToken (some t) now2 gen req = (.ok t, some t, 0)) := by
  refine ⟨?_, ?_, ?_, ?_⟩
  · intro h
    simp [getInstallationToken, isCacheValid, h]
  · intro hv
    simp only [getInstallationToken, hv, Bool.false_eq_true, if_false]
    cases gen with
    | error e => rfl
    | ok j =>
      cases hr : req j with
      | error e => simp [hr]
      | ok tok => simp [hr]
  · intro hv hg hr
    subst hg
    simp [getInstallationToken, hv, hr]
  · intro hg hr h2
    subst hg
    constructor
    · simp [getInstallationToken, isCacheValid, hr]
    · simp [getInstallationToken, isCacheValid, h2]

/-- C1 witness: a concrete two-call run — empty cache, provider returns a
token with one hour of validity; the second call 1000 ms later is a pure
cache hit. -/
theorem c1_broker_refresh_policy_witness :
    getInstallationToken (A := String) (B := String) none 0 (.ok "jwt")
        (fun _ => .ok ⟨"T", 3600000⟩) = (.ok ⟨"T", 3600000⟩, some ⟨"T", 3600000⟩, 1) ∧
    getInstallationToken (A := String) (B := String) (some ⟨"T", 3600000⟩) 1000 (.ok "jwt")
        (fun _ => .ok ⟨"T", 3600000⟩) = (.ok ⟨"T", 3600000⟩, some ⟨"T", 3600000⟩, 0) :=
  (c1_broker_refresh_policy (A := String) (B := String) ⟨"T", 3600000⟩ 0 1000 (.ok "jwt")
    (fun _ => .ok ⟨"T", 3600000⟩) none "jwt").2.2.2 rfl rfl (by norm_num [CACHE_BUFFER_MS])

/-- C2 counterexample: at the concrete probe outcome `EPERM` (permission
denied — e.g. the pid was reused by another user) `isProcessAlive` reports
dead, while the claim requires it to conservatively report alive (as the
spec-following probe `specProbeAlive` does). -/
theorem c2_probe_eperm_counterexample :
    isProcessAlive .eperm = false ∧ specProbeAlive .eperm = true :=
  ⟨rfl, rfl⟩

/-- C2 amended: the liveness probe reports the process alive exactly when
sending the zero/no-op signal succeeds; EVERY thrown error — "no such
process", permission denied, or anything else — is treated as dead, because
the bare `catch` of `isProcessAlive` discards the error code. -/
theorem c2_probe_any_error_dead :
    isProcessAlive .success = true ∧
    isProcessAlive .esrch = false ∧
    isProcessAlive .eperm = false ∧
    (∀ code, isProcessAlive (.otherError code) = false) :=
  ⟨rfl, rfl, rfl, fun _ => rfl⟩

/-- C3 counterexample: with a held handle, both files present and a failing
listener close, `stop()` fails with `DaemonError` and deletes neither the
socket file nor the pid file — the claim states both deletions still
happen. -/
theorem c3_stop_close_failure_counterexample :
    daemonStop ⟨true, some "123", true⟩ false "close failed" =
      (.error (.daemonError "close failed"), ⟨false, some "123", true⟩, []) :=
  rfl

/-- C3 amended: when closing the listener fails, `stop()` surfaces
`DaemonError`, releases the in-process handle, and performs NO file
cleanup — the socket and pid files survive; the two deletions happen only
when the close completes cleanly. -/
theorem c3_stop_cleanup_gated (st : DaemonState) (msg : String) (c : String)
    (h : st.serverHeld = true) :
    daemonStop st false msg =
      (.error (.daemonError msg), { st with serverHeld := false }, []) ∧
    (st.socketFile = true → st.pidFile = some c →
      daemonStop st true msg = (.ok (), ⟨false, none, false⟩, [.unlinkSocket, .unlinkPid])) := by
  constructor
  · simp [daemonStop, h]
  · intro hs hp
    simp [daemonStop, h, hs, hp]

/-- C3 witness: the amended behaviour at a concrete held-handle state, for
both a failing and a succeeding close. -/
theorem c3_stop_cleanup_gated_witness :
    daemonStop ⟨true, some "9", true⟩ false "boom" =
      (.error (.daemonError "boom"), ⟨false, some "9", true⟩, []) ∧
    daemonStop ⟨true, some "9", true⟩ true "boom" =
      (.ok (), ⟨false, none, false⟩, [.unlinkSocket, .unlinkPid]) := by
  have h := c3_stop_cleanup_gated ⟨true, some "9", true⟩ "boom" "9" rfl
  exact ⟨h.1, h.2 rfl rfl⟩

/-- Helper: the poll loop never makes more ping calls than it has fuel. -/
theorem waitLoop_pings_le (p : Nat → Except ClientError Unit) :
    ∀ fuel attempt last, (waitLoop p fuel attempt last).2.1 ≤ fuel := by
  intro fuel
  induction fuel with
  | zero => intro attempt last; simp [waitLoop]
  | succ n ih =>
    intro attempt last
    unfold waitLoop
    cases hp : p attempt with
    | ok _ => simp
    | error e =>
      simp only
      have := ih (attempt + 1) (some e)
      omega

/-- Helper: every sleep the poll loop performs is the fixed interval. -/
theorem waitLoop_sleeps_fixed (p : Nat → Except ClientError Unit) :
    ∀ fuel attempt last d, d ∈ (waitLoop p fuel attempt last).2.2 → d = pollIntervalMs := by
  intro fuel
  induction fuel with
  | zero => intro attempt last d hd; simp [waitLoop] at hd
  | succ n ih =>
    intro attempt last d hd
    unfold waitLoop at hd
    cases hp : p attempt with
    | ok _ => rw [hp] at hd; simp at hd
    | error e =>
      rw [hp] at hd
      simp only [List.mem_cons] at hd
      rcases hd with h | h
      · exact h
      · exact ih (attempt + 1) (some e) d h

/-- C4 counterexample: with the daemon process started but every ping
failing at protocol level (a `SocketError`), the poll exhausts its ten
attempts and `waitForDaemon` fails with that `SocketError` — not with
`DaemonNotRunning` as the claim states (the code re-raises `lastError`). -/
theorem c4_wait_exhaustion_counterexample :
    waitForDaemon (fun _ => .error (.socketError "boom")) =
      (.error (.socketError "boom"), 10, List.replicate 10 pollIntervalMs) ∧
    (waitForDaemon (fun _ => .error (.socketError "boom"))).1 ≠
      .error .daemonNotRunning :=
  ⟨rfl, fun h => ClientError.noConfusion (Except.error.inj h)⟩

/-- C4 amended: the orchestration polls `ping` at the fixed 200 ms interval
for at most 10 attempts; if no attempt succeeds it fails with the error of
the LAST ping attempt (`DaemonNotRunning` exactly when that last ping failed
with `DaemonNotRunning`); if some attempt succeeds the original token
request is retried exactly once — the request count of the `gh` flow never
exceeds 2 and reaches 2 only on the auto-start-then-successful-wait path. -/
theorem c4_poll_and_retry_amended (T : Type) :
    (∀ p, (waitForDaemon p).2.1 ≤ pollMaxAttempts) ∧
    (∀ p d, d ∈ (waitForDaemon p).2.2 → d = pollIntervalMs) ∧
    (∀ e : Nat → ClientError,
      waitForDaemon (fun i => .error (e i)) =
        (.error (e 9), pollMaxAttempts, List.replicate pollMaxAttempts pollIntervalMs)) ∧
    (∀ second : Except ClientError T,
      ghTokenFlow false (.error .daemonNotRunning) true (.ok ()) second = (some second, 2)) ∧
    (∀ (nds : Bool) (first : Except ClientError T) (authOk : Bool) wait second,
      (ghTokenFlow nds first authOk wait second).2 ≤ 2 ∧
      ((ghTokenFlow nds first authOk wait second).2 = 2 →
        first = .error .daemonNotRunning ∧ nds = false ∧ authOk = true ∧ wait = .ok ())) := by
  refine ⟨fun p => waitLoop_pings_le p pollMaxAttempts 0 none,
          fun p => waitLoop_sleeps_fixed p pollMaxAttempts 0 none,
          fun e => rfl, fun second => rfl, ?_⟩
  intro nds first authOk wait second
  cases first with
  | ok v => simp [ghTokenFlow]
  | error e =>
    cases e with
    | socketError m => simp [ghTokenFlow]
    | daemonNotRunning =>
      cases nds with
      | true => simp [ghTokenFlow]
      | false =>
        cases authOk with
        | false => simp [ghTokenFlow]
        | true =>
          cases wait with
          | ok _ => simp [ghTokenFlow]
          | error e2 => simp [ghTokenFlow]

/-- C4 witness: the amended statement applied at a fully concrete run — a
successful wait retries the token request once (2 requests in total), and a
run whose pings all fail with `DaemonNotRunning` fails with exactly that. -/
theorem c4_poll_and_retry_amended_witness :
    ghTokenFlow (T := Unit) false (.error .daemonNotRunning) true (.ok ()) (.ok ()) =
      (some (.ok ()), 2) ∧
    waitForDaemon (fun _ => .error .daemonNotRunning) =
      (.error .daemonNotRunning, pollMaxAttempts, List.replicate pollMaxAttempts pollIntervalMs) :=
  ⟨(c4_poll_and_retry_amended Unit).2.2.2.1 (.ok ()),
   (c4_poll_and_retry_amended Unit).2.2.1 (fun _ => .daemonNotRunning)⟩

/-- C5 counterexample: a `ping()` whose established connection answers with
the non-JSON line "garbage" SUCCEEDS — the ping path discards the response
line unparsed — whereas the claim requires every client request that
receives invalid JSON to fail with `SocketError`. -/
theorem c5_ping_ignores_response_counterexample :
    pingClient true (.lineEvent "garbage") = some (.ok ()) := rfl

/-- C5 amended: connection-level classification holds for every request
(absent socket file, synchronous connect throw, ECONNREFUSED and ENOENT all
yield `DaemonNotRunning`; any other connection error yields `SocketError`),
and the protocol-level classification — non-JSON response or `ok:false`
payload to `SocketError`, carrying the server-supplied error string — holds
for TOKEN requests; a ping succeeds once any response line arrives, without
inspecting its content. -/
theorem c5_client_classification_amended :
    (∀ b, sendRequest false b = some (.error .daemonNotRunning)) ∧
    (sendRequest true .connectThrow = some (.error .daemonNotRunning)) ∧
    (∀ m, sendRequest true (.errorEvent "ECONNREFUSED" m) = some (.error .daemonNotRunning)) ∧
    (∀ m, sendRequest true (.errorEvent "ENOENT" m) = some (.error .daemonNotRunning)) ∧
    (∀ code m, code ≠ "ECONNREFUSED" → code ≠ "ENOENT" →
      sendRequest true (.errorEvent code m) = some (.error (.socketError m))) ∧
    (∀ line, parseJson line = none →
      requestToken true (.lineEvent line) = some (.error (.socketError "Malformed response"))) ∧
    (∀ line parsed msg, parseJson line = some parsed →
      jsGet parsed "ok" = some (.bool false) → jsGet parsed "error" = some (.str msg) →
      requestToken true (.lineEvent line) = some (.error (.socketError msg))) ∧
    (∀ line, pingClient true (.lineEvent line) = some (.ok ())) := by
  refine ⟨fun b => by cases b <;> rfl, rfl, fun m => rfl, fun m => rfl, ?_, ?_, ?_, fun line => rfl⟩
  · intro code m h1 h2
    simp [sendRequest, h1, h2]
  · intro line h
    simp [requestToken, sendRequest, parseTokenResponse, h]
  · intro line parsed msg hline hok herr
    cases parsed with
    | null => simp [jsGet] at hok
    | bool b => simp [jsGet] at hok
    | num x => simp [jsGet] at hok
    | str s => simp [jsGet] at hok
    | arr xs => simp [jsGet] at hok
    | obj fields =>
      simp [requestToken, sendRequest, parseTokenResponse, hline, hok, herr, jsTruthy]

/-- C5 witness: the amended classification at concrete inputs — a stale
socket (connection refused) gives `DaemonNotRunning`; a token request
answered with non-JSON gives the malformed-response `SocketError`; one
answered with an `ok:false` payload carries the server's error string. -/
theorem c5_client_classification_amended_witness :
    sendRequest true (.errorEvent "ECONNREFUSED" "connect ECONNREFUSED") =
      some (.error .daemonNotRunning) ∧
    requestToken true (.lineEvent "garbage") =
      some (.error (.socketError "Malformed response")) ∧
    requestToken true (.lineEvent "\x7b\"ok\":false,\"error\":\"X\"\x7d") =
      some (.error (.socketError "X")) :=
  ⟨c5_client_classification_amended.2.2.1 "connect ECONNREFUSED",
   c5_client_classification_amended.2.2.2.2.2.1 "garbage" rfl,
   c5_client_classification_amended.2.2.2.2.2.2.1 "\x7b\"ok\":false,\"error\":\"X\"\x7d"
     (.obj [("ok", .bool false), ("error", .str "X")]) "X" rfl rfl rfl⟩

/-- C6: the client installs no per-request timeout — when the socket file
exists and the server accepts the connection but never emits a `data` line
or an `error` event, `sendRequest` (and with it `requestToken` and `ping`)
never completes: the `Effect.async` callback is never resumed, so the
caller hangs indefinitely, contradicting the required hard timeout. -/
theorem c6_no_timeout_request_hangs :
    sendRequest true .silence = none ∧
    requestToken true .silence = none ∧
    pingClient true .silence = none :=
  ⟨rfl, rfl, rfl⟩

/-- Helper: splitting a newline-free prefix off a buffer that continues with
a newline. -/
theorem takeWhile_neq_newline_append (l m : List Char)
    (h : l.all (fun c => c != '\n') = true) :
    (l ++ '\n' :: m).takeWhile (fun c => c != '\n') = l ∧
    (l ++ '\n' :: m).dropWhile (fun c => c != '\n') = '\n' :: m := by
  induction l with
  | nil => simp [List.takeWhile, List.dropWhile]
  | cons c cs ih =>
    simp only [List.all_cons, Bool.and_eq_true] at h
    have hrest := ih h.2
    simp [List.takeWhile, List.dropWhile, h.1, hrest.1, hrest.2]

/-- Helper: the server answers the first newline-terminated message of a
connection buffer. -/
theorem firstLine_terminated (message junk : String)
    (h : message.data.all (fun c => c != '\n') = true) :
    firstLine (message ++ "\n" ++ junk) = some (message, junk) := by
  obtain ⟨l⟩ := message
  obtain ⟨m⟩ := junk
  have key := takeWhile_neq_newline_append l m h
  unfold firstLine
  have hdata : ((⟨l⟩ : String) ++ "\n" ++ (⟨m⟩ : String)).data = l ++ '\n' :: m := by
    show (l ++ ['\n']) ++ m = l ++ '\n' :: m
    simp
  rw [hdata, key.1, key.2]

/-- C7: the request line `{"action":"ping"}` yields exactly the response
`{"ok":true,"pong":true}`; EVERY line that is not valid JSON yields
`{"ok":false,"error":"Invalid JSON"}`; every parsed value whose `action` is
neither the string "ping" nor the string "getToken" — whether the action is
another string, a non-string value, or absent — yields
`{"ok":false,"error":"Unknown action: <value>"}` (with `<value>` rendered as
`parsed.action ?? "(none)"`); and the server writes the single
newline-terminated response for a connection's first message back on that
same connection (`serverConnOutput` maps a connection's received bytes to
the bytes written on that connection). -/
theorem c7_router_wire_responses :
    (∀ tr, handleRequest "\x7b\"action\":\"ping\"\x7d" tr =
      some "\x7b\"ok\":true,\"pong\":true\x7d") ∧
    (∀ tr raw, parseJson (jsTrim raw) = none →
      handleRequest raw tr = some "\x7b\"ok\":false,\"error\":\"Invalid JSON\"\x7d") ∧
    (∀ tr, handleRequest "not json" tr =
      some "\x7b\"ok\":false,\"error\":\"Invalid JSON\"\x7d") ∧
    (∀ tr raw parsed, parseJson (jsTrim raw) = some parsed → parsed ≠ .null →
      jsGet parsed "action" ≠ some (.str "ping") →
      jsGet parsed "action" ≠ some (.str "getToken") →
      handleRequest raw tr = some (stringify (.obj [("ok", .bool false),
        ("error", .str ("Unknown action: " ++ jsCoalesceDisplay (jsGet parsed "action")))]))) ∧
    (∀ tr, handleRequest "\x7b\"action\":\"foo\"\x7d" tr =
      some "\x7b\"ok\":false,\"error\":\"Unknown action: foo\"\x7d") ∧
    (∀ message junk tr d, message.data.all (fun c => c != '\n') = true →
      serverConnOutput (message ++ "\n" ++ junk) tr d = some (connResponse message tr d)) ∧
    (∀ message tr d, ∃ resp, connResponse message tr d = resp ++ "\n") := by
  refine ⟨fun tr => rfl, ?_, fun tr => rfl, ?_, fun tr => rfl, ?_, ?_⟩
  · intro tr raw h
    unfold handleRequest
    rw [h]
    rfl
  · intro tr raw parsed hparse hnull h1 h2
    cases parsed with
    | null => exact absurd rfl hnull
    | bool b => simp [handleRequest, hparse, jsGet, jsCoalesceDisplay]
    | num x => simp [handleRequest, hparse, jsGet, jsCoalesceDisplay]
    | str s => simp [handleRequest, hparse, jsGet, jsCoalesceDisplay]
    | arr xs => simp [handleRequest, hparse, jsGet, jsCoalesceDisplay]
    | obj fields =>
      cases ha : jsGet (.obj fields) "action" with
      | none => simp [handleRequest, hparse, ha, jsCoalesceDisplay]
      | some v =>
        cases v with
        | null => simp [handleRequest, hparse, ha, jsCoalesceDisplay]
        | bool b => simp [handleRequest, hparse, ha, jsCoalesceDisplay]
        | num x => simp [handleRequest, hparse, ha, jsCoalesceDisplay]
        | arr xs => simp [handleRequest, hparse, ha, jsCoalesceDisplay]
        | obj gs => simp [handleRequest, hparse, ha, jsCoalesceDisplay]
        | str a =>
          have hap : a ≠ "ping" := fun hh => h1 (by rw [ha, hh])
          have hag : a ≠ "getToken" := fun hh => h2 (by rw [ha, hh])
          simp [handleRequest, hparse, ha, hap, hag, jsCoalesceDisplay, jsDisplay]
  · intro message junk tr d h
    simp [serverConnOutput, firstLine_terminated message junk h]
  · intro message tr d
    cases hr : handleRequest message tr with
    | some resp => exact ⟨resp, by simp [connResponse, hr]⟩
    | none =>
      exact ⟨stringify (.obj [("ok", .bool false), ("error", .str d)]),
        by simp [connResponse, hr]⟩

/-- C7 witness: the universal conjuncts applied at concrete inputs — a
non-JSON line, a request whose `action` is the non-string value `5`, one
whose `action` is the unknown string "bar", and a newline-terminated ping
message on a connection. -/
theorem c7_router_wire_responses_witness :
    handleRequest "garbage" (.error "e") =
      some "\x7b\"ok\":false,\"error\":\"Invalid JSON\"\x7d" ∧
    handleRequest "\x7b\"action\":5\x7d" (.error "e") =
      some "\x7b\"ok\":false,\"error\":\"Unknown action: 5\"\x7d" ∧
    handleRequest "\x7b\"action\":\"bar\"\x7d" (.error "e") =
      some "\x7b\"ok\":false,\"error\":\"Unknown action: bar\"\x7d" ∧
    serverConnOutput "\x7b\"action\":\"ping\"\x7d\n" (.error "e") "d" =
      some "\x7b\"ok\":true,\"pong\":true\x7d\n" := by
  refine ⟨?_, ?_, ?_, ?_⟩
  · exact c7_router_wire_responses.2.1 (.error "e") "garbage" rfl
  · exact c7_router_wire_responses.2.2.2.1 (.error "e") "\x7b\"action\":5\x7d"
      (.obj [("action", .num "5")]) rfl (fun h => Json.noConfusion h)
      (fun h => Json.noConfusion (Option.some.inj h))
      (fun h => Json.noConfusion (Option.some.inj h))
  · exact c7_router_wire_responses.2.2.2.1 (.error "e") "\x7b\"action\":\"bar\"\x7d"
      (.obj [("action", .str "bar")]) rfl (fun h => Json.noConfusion h)
      (fun h => absurd (Json.str.inj (Option.some.inj h)) (by decide))
      (fun h => absurd (Json.str.inj (Option.some.inj h)) (by decide))
  · exact c7_router_wire_responses.2.2.2.2.2.1 "\x7b\"action\":\"ping\"\x7d" ""
      (.error "e") "d" (by decide)

/-- C8: a `start()` call with no held handle and a pid file naming a process
the liveness probe reports dead deletes the stale pid file, removes any
pre-existing socket file, binds the listener (here assumed to succeed, as
the claim presupposes) and succeeds, leaving the pid file containing the new
process's decimal pid. -/
theorem c8_start_reclaims_stale (st : DaemonState) (probe : Int → KillOutcome)
    (bmsg : String) (selfPid : Nat) (content : String) (pid : Int)
    (h1 : st.serverHeld = false) (h2 : st.pidFile = some content)
    (h3 : jsParseInt10 content = some pid) (h4 : isProcessAlive (probe pid) = false) :
    daemonStart st probe true bmsg selfPid =
      (.ok (), ⟨true, some (toString selfPid), true⟩,
       [.unlinkPid] ++ (if st.socketFile then [.unlinkSocket] else []) ++
         [.bindListener, .chmodSocket, .writePid (toString selfPid)]) := by
  obtain ⟨sh, pf, sf⟩ := st
  simp only at h1 h2
  subst h1
  subst h2
  cases sf <;> simp [daemonStart, h3, h4]

/-- C8 witness: a concrete stale-pid-file state (pid 42 probed as ESRCH, a
leftover socket file) started by process 777. -/
theorem c8_start_reclaims_stale_witness :
    daemonStart ⟨false, some "42", true⟩ (fun _ => .esrch) true "bind" 777 =
      (.ok (), ⟨true, some "777", true⟩,
       [.unlinkPid, .unlinkSocket, .bindListener, .chmodSocket, .writePid "777"]) := by
  have h := c8_start_reclaims_stale ⟨false, some "42", true⟩ (fun _ => .esrch)
    "bind" 777 "42" 42 rfl rfl rfl rfl
  simpa using h

/-- C9: failed lifecycle operations mutate nothing — `start()` failing with
`AlreadyRunning` (handle already held, or pid file naming a live process)
leaves the state exactly as it was and performs no filesystem action, and
`stop()` failing with `NotRunning` likewise performs no action. -/
theorem c9_failed_ops_no_mutation (st : DaemonState) (probe : Int → KillOutcome)
    (bindOk : Bool) (bmsg : String) (selfPid : Nat) (closeOk : Bool) (cmsg : String) :
    ((daemonStart st probe bindOk bmsg selfPid).1 = .error .alreadyRunning →
      (daemonStart st probe bindOk bmsg selfPid).2.1 = st ∧
      (daemonStart st probe bindOk bmsg selfPid).2.2 = []) ∧
    ((daemonStop st closeOk cmsg).1 = .error .notRunning →
      (daemonStop st closeOk cmsg).2.1 = st ∧
      (daemonStop st closeOk cmsg).2.2 = []) := by
  obtain ⟨sh, pf, sf⟩ := st
  constructor
  · intro h
    cases sh with
    | true => simp [daemonStart]
    | false =>
      cases pf with
      | none => cases bindOk <;> cases sf <;> simp [daemonStart] at h
      | some content =>
        cases hp : jsParseInt10 content with
        | none => cases bindOk <;> cases sf <;> simp [daemonStart, hp] at h
        | some pid =>
          cases ha : isProcessAlive (probe pid) with
          | true => simp [daemonStart, hp, ha]
          | false => cases bindOk <;> cases sf <;> simp [daemonStart, hp, ha] at h
  · intro h
    cases sh with
    | false => simp [daemonStop]
    | true =>
      cases closeOk with
      | false => simp [daemonStop] at h
      | true =>
        cases sf <;> cases pf <;> simp [daemonStop] at h

/-- C9 witness: a held-handle `start()` and a no-handle `stop()` at concrete
states — both fail and both leave state and filesystem untouched. -/
theorem c9_failed_ops_no_mutation_witness :
    (daemonStart ⟨true, some "5", true⟩ (fun _ => .success) true "b" 1).2.1 =
      ⟨true, some "5", true⟩ ∧
    (daemonStart ⟨true, some "5", true⟩ (fun _ => .success) true "b" 1).2.2 = [] ∧
    (daemonStop ⟨false, some "5", true⟩ true "c").2.1 = ⟨false, some "5", true⟩ ∧
    (daemonStop ⟨false, some "5", true⟩ true "c").2.2 = [] := by
  have ha := (c9_failed_ops_no_mutation ⟨true, some "5", true⟩ (fun _ => .success)
    true "b" 1 true "c").1 rfl
  have hb := (c9_failed_ops_no_mutation ⟨false, some "5", true⟩ (fun _ => .success)
    true "b" 1 true "c").2 rfl
  exact ⟨ha.1, ha.2, hb.1, hb.2⟩

/-- C10 counterexample: the request line "null" is valid JSON, so the parse
try/catch passes, but `parsed.action` then throws a TypeError — the handler
dies with a defect and produces NO response string, for any token-service
outcome; the claim states a response is always produced. -/
theorem c10_null_line_defect_counterexample :
    handleRequest "null" (.error "boom") = none ∧
    handleRequest "null" (.ok ⟨"T", "E"⟩) = none :=
  ⟨rfl, rfl⟩

/-- Helper: shape of every response the router does produce — the
stringification of an object whose `ok` member is the boolean of the
outcome, with a string `error` member in the failure case. -/
theorem handleRequest_response_shape (raw : String) (tr : Except String ServerToken)
    (h : parseJson (jsTrim raw) ≠ some .null) :
    ∃ fields, handleRequest raw tr = some (stringify (.obj fields)) ∧
      (jsGet (.obj fields) "ok" = some (.bool true) ∨
       (jsGet (.obj fields) "ok" = some (.bool false) ∧
        ∃ msg, jsGet (.obj fields) "error" = some (.str msg))) := by
  cases hp : parseJson (jsTrim raw) with
  | none =>
    exact ⟨[("ok", .bool false), ("error", .str "Invalid JSON")],
      by simp [handleRequest, hp], .inr ⟨rfl, "Invalid JSON", rfl⟩⟩
  | some parsed =>
    cases parsed with
    | null => exact absurd hp h
    | bool b =>
      exact ⟨[("ok", .bool false), ("error", .str ("Unknown action: " ++ jsCoalesceDisplay none))],
        by simp [handleRequest, hp, jsGet], .inr ⟨rfl, _, rfl⟩⟩
    | num x =>
      exact ⟨[("ok", .bool false), ("error", .str ("Unknown action: " ++ jsCoalesceDisplay none))],
        by simp [handleRequest, hp, jsGet], .inr ⟨rfl, _, rfl⟩⟩
    | str s =>
      exact ⟨[("ok", .bool false), ("error", .str ("Unknown action: " ++ jsCoalesceDisplay none))],
        by simp [handleRequest, hp, jsGet], .inr ⟨rfl, _, rfl⟩⟩
    | arr xs =>
      exact ⟨[("ok", .bool false), ("error", .str ("Unknown action: " ++ jsCoalesceDisplay none))],
        by simp [handleRequest, hp, jsGet], .inr ⟨rfl, _, rfl⟩⟩
    | obj fs =>
      cases ha : jsGet (.obj fs) "action" with
      | none =>
        exact ⟨[("ok", .bool false), ("error", .str ("Unknown action: " ++ jsCoalesceDisplay none))],
          by simp [handleRequest, hp, ha], .inr ⟨rfl, _, rfl⟩⟩
      | some v =>
        cases v with
        | null =>
          exact ⟨[("ok", .bool false),
            ("error", .str ("Unknown action: " ++ jsCoalesceDisplay (some .null)))],
            by simp [handleRequest, hp, ha], .inr ⟨rfl, _, rfl⟩⟩
        | bool b =>
          exact ⟨[("ok", .bool false),
            ("error", .str ("Unknown action: " ++ jsCoalesceDisplay (some (.bool b))))],
            by simp [handleRequest, hp, ha, jsCoalesceDisplay], .inr ⟨rfl, _, rfl⟩⟩
        | num x =>
          exact ⟨[("ok", .bool false),
            ("error", .str ("Unknown action: " ++ jsCoalesceDisplay (some (.num x))))],
            by simp [handleRequest, hp, ha, jsCoalesceDisplay], .inr ⟨rfl, _, rfl⟩⟩
        | arr xs =>
          exact ⟨[("ok", .bool false),
            ("error", .str ("Unknown action: " ++ jsCoalesceDisplay (some (.arr xs))))],
            by simp [handleRequest, hp, ha, jsCoalesceDisplay], .inr ⟨rfl, _, rfl⟩⟩
        | obj gs =>
          exact ⟨[("ok", .bool false),
            ("error", .str ("Unknown action: " ++ jsCoalesceDisplay (some (.obj gs))))],
            by simp [handleRequest, hp, ha, jsCoalesceDisplay], .inr ⟨rfl, _, rfl⟩⟩
        | str a =>
          by_cases hping : a = "ping"
          · subst hping
            exact ⟨[("ok", .bool true), ("pong", .bool true)],
              by simp [handleRequest, hp, ha], .inl rfl⟩
          · by_cases htok : a = "getToken"
            · subst htok
              cases tr with
              | ok t =>
                exact ⟨[("ok", .bool true), ("token", .str t.token),
                  ("expiresAt", .str t.expiresAtIso)],
                  by simp [handleRequest, hp, ha], .inl rfl⟩
              | error e =>
                exact ⟨[("ok", .bool false), ("error", .str e)],
                  by simp [handleRequest, hp, ha], .inr ⟨rfl, e, rfl⟩⟩
            · exact ⟨[("ok", .bool false), ("error", .str ("Unknown action: " ++ a))],
                by simp [handleRequest, hp, ha, hping, htok], .inr ⟨rfl, _, rfl⟩⟩

/-- C10 amended: for every input line that does NOT parse to JSON `null`,
the router never fails (its typed error channel is `never`) and produces
exactly one JSON response whose `ok` member is boolean, mapping every
failure — invalid JSON, unknown or missing action, credential-provider
error — to `{ok:false,error:<string>}`.  A line parsing to `null` makes the
handler die with a defect; the connection layer's `.catch` still writes a
single well-formed `{ok:false,error}` line, so on the wire exactly one
boolean-`ok` response is produced for EVERY line. -/
theorem c10_router_totality_amended :
    (∀ raw tr, parseJson (jsTrim raw) ≠ some .null →
      ∃ fields, handleRequest raw tr = some (stringify (.obj fields)) ∧
        (jsGet (.obj fields) "ok" = some (.bool true) ∨
         (jsGet (.obj fields) "ok" = some (.bool false) ∧
          ∃ msg, jsGet (.obj fields) "error" = some (.str msg)))) ∧
    (∀ raw tr d, ∃ fields, connResponse raw tr d = stringify (.obj fields) ++ "\n" ∧
        (jsGet (.obj fields) "ok" = some (.bool true) ∨
         jsGet (.obj fields) "ok" = some (.bool false))) := by
  constructor
  · exact handleRequest_response_shape
  · intro raw tr d
    by_cases h : parseJson (jsTrim raw) = some .null
    · refine ⟨[("ok", .bool false), ("error", .str d)], ?_, .inr rfl⟩
      have hnone : handleRequest raw tr = none := by simp [handleRequest, h]
      simp [connResponse, hnone]
    · obtain ⟨fields, hf, hok⟩ := handleRequest_response_shape raw tr h
      refine ⟨fields, by simp [connResponse, hf], ?_⟩
      rcases hok with h1 | h2
      · exact .inl h1
      · exact .inr h2.1

/-- C10 witness: the amended statement applied at a concrete ping line and
at the defect-producing "null" line (where the connection layer still
responds). -/
theorem c10_router_totality_amended_witness :
    (∃ fields, handleRequest "\x7b\"action\":\"ping\"\x7d" (.error "e") =
        some (stringify (.obj fields)) ∧
      (jsGet (.obj fields) "ok" = some (.bool true) ∨
       (jsGet (.obj fields) "ok" = some (.bool false) ∧
        ∃ msg, jsGet (.obj fields) "error" = some (.str msg)))) ∧
    (∃ fields, connResponse "null" (.error "e") "defect" =
        stringify (.obj fields) ++ "\n" ∧
      (jsGet (.obj fields) "ok" = some (.bool true) ∨
       jsGet (.obj fields) "ok" = some (.bool false))) :=
  ⟨c10_router_totality_amended.1 "\x7b\"action\":\"ping\"\x7d" (.error "e")
    (fun h => Json.noConfusion (Option.some.inj h)),
   c10_router_totality_amended.2 "null" (.error "e") "defect"⟩

end Apptoken
